import Mathlib

/-!
Shallow embedding of the shoe-recommender pipeline (`core/recommender.py`).

The matcher/scorer (`ShoeRecommender.recommend` and the `_filter_by_*`,
`_score_products` helpers) is modelled as pure functions over typed rows.
Cell values are modelled by `Py` (a fragment of Python's dynamic values:
`None`/NaN, strings, numbers, flat string lists and flat JSON objects;
nested containers do not occur in the paths the development reasons about).
Machine floats are modelled by `ℚ`; on every concrete input appearing below
the float computations of the source are exact, so the branch outcomes agree.
Exceptions are modelled by `Except PyErr`.
-/

namespace ShoeRec

/-- Leaf values of a parsed JSON object (the fragment the pipeline consumes). -/
inductive PVal where
  | vnone
  | vstr (s : String)
  | vnum (q : ℚ)
  deriving DecidableEq

/-- A Python cell value as stored in a dataframe column. `pnone` stands for
both Python `None` and pandas `NaN` (the code only observes them through
`pd.isna`/`str`, which treat the two alike for every path modelled here). -/
inductive Py where
  | pnone
  | pstr (s : String)
  | pnum (q : ℚ)
  | pstrList (xs : List String)
  | pobj (kvs : List (String × PVal))
  deriving DecidableEq

/-- Exceptions that the modelled code can raise. -/
inductive PyErr where
  | keyError
  | attributeError
  | valueError
  deriving DecidableEq

/-- Python `str(x)`. Exact for `None` and strings — the only cases any
theorem below depends on; the representation of numbers and containers is a
stated approximation (no modelled path observes it). -/
def pyStr : Py → String
  | .pnone => "None"
  | .pstr s => s
  | .pnum q => toString q
  | .pstrList xs => "[" ++ String.intercalate ", " (xs.map (fun s => "'" ++ s ++ "'")) ++ "]"
  | .pobj _ => "PyObject"

/-- pandas `pd.isna` on a cell value. -/
def pdIsna : Py → Bool
  | .pnone => true
  | _ => false

/-- Python `s.replace('.', '')`. -/
def stripDots (s : String) : String :=
  String.mk (s.data.filter (fun c => c ≠ '.'))

/-- Numeric value of a digit list (most significant first). -/
def digitsVal (ds : List Char) : ℕ :=
  ds.foldl (fun n c => 10 * n + (c.toNat - 48)) 0

/-- Core of `pyFloat` after sign handling: `digits`, `digits.digits`,
`digits.` and `.digits` forms. -/
def pyFloatCore (u : List Char) : Option ℚ :=
  let ip := u.takeWhile Char.isDigit
  let rest := u.dropWhile Char.isDigit
  match rest with
  | [] => if ip.isEmpty then none else some (digitsVal ip : ℚ)
  | '.' :: fp =>
    if fp.all Char.isDigit && (!ip.isEmpty || !fp.isEmpty) then
      some ((digitsVal ip : ℚ) + (digitsVal fp : ℚ) / (10 : ℚ) ^ fp.length)
    else none
  | _ => none

/-- Python `float(s)` on a string, as used by `_parse_size`: surrounding
whitespace is ignored, an optional sign precedes a plain decimal literal.
(Exponent forms, `inf`/`nan` and digit-group underscores are outside the
fragment exercised by size strings and are mapped to a parse failure.) -/
def pyFloat (s : String) : Option ℚ :=
  match s.trim.data with
  | '-' :: u => (pyFloatCore u).map (fun q => -q)
  | '+' :: u => pyFloatCore u
  | u => pyFloatCore u

/-- Python's `\w` test on the ASCII range (`re` word characters). -/
def isWordChar (c : Char) : Bool :=
  c.isAlphanum || c = '_'

/-- Whether an optional character is a word character (`none` = outside the
string). -/
def wordAt : Option Char → Bool
  | some c => isWordChar c
  | none => false

/-- The `\b` assertion of `re` between two adjacent positions. -/
def boundary (prev next : Option Char) : Bool :=
  wordAt prev != wordAt next

/-- Character just before position `i`, if any. -/
def prevChar (s : List Char) (i : ℕ) : Option Char :=
  if i = 0 then none else s[i - 1]?

/-- Attempt of one alternation branch of `\b(Women's|Men's|Unisex|Kids')\b`
at position `i`: both boundaries must hold and the token must occur there. -/
def matchTokenAt (s : List Char) (i : ℕ) (tok : List Char) : Bool :=
  boundary (prevChar s i) s[i]? &&
    tok.isPrefixOf (s.drop i) &&
    boundary (prevChar s (i + tok.length)) s[i + tok.length]?

/-- The alternation of `_extract_gender`'s pattern, in source order. -/
def genderTokens : List String :=
  ["Women's", "Men's", "Unisex", "Kids'"]

/-- `re.search(r"\b(Women's|Men's|Unisex|Kids')\b", s)`: leftmost position
wins; at a position, alternatives are tried in pattern order. Returns the
text captured by the group. -/
def reSearchGender (s : String) : Option String :=
  (List.range (s.data.length + 1)).findSome? (fun i =>
    genderTokens.findSome? (fun tok =>
      if matchTokenAt s.data i tok.data then some tok else none))

/-- The row-level `_get_gender` of `_extract_gender`: non-strings give
`Unknown`, otherwise the first vocabulary match, else `Unknown`. -/
def pyGender : Py → String
  | .pstr s => (reSearchGender s).getD "Unknown"
  | _ => "Unknown"

/-- The row-level `_parse_size` of `_filter_by_size`. Result: (optional
size interval, `is_range`); `(none, false)` models the `(None, None, False)`
failure triple (missing value, non-string, or any caught exception).
In the hyphen branch the source first strips all dots
(`x.replace('.', '').strip()`) and only then tests `endswith('.')`, so the
`+ 0.5` half-size arm there can never fire; it is kept verbatim. In the
single-value branch the `endswith('.')` test is on the original string. -/
def parseSize : Py → Option (ℚ × ℚ) × Bool
  | .pstr s =>
    if s.contains '-' then
      match s.splitOn "-" with
      | [a, b] =>
        let a2 := (stripDots a).trim
        let b2 := (stripDots b).trim
        let lo? := if a2.endsWith "." then (pyFloat a2).map (fun v => v + 1/2) else pyFloat a2
        let hi? := if b2.endsWith "." then (pyFloat b2).map (fun v => v + 1/2) else pyFloat b2
        match lo?, hi? with
        | some lo, some hi => (some (lo - 1/2, hi + 1/2), true)
        | _, _ => (none, false)
      | _ => (none, false)
    else
      let v? := if s.endsWith "." then (pyFloat (stripDots s)).map (fun v => v + 1/2) else pyFloat s
      match v? with
      | some v => (some (v - 1/2, v + 1/2), false)
      | none => (none, false)
  | _ => (none, false)

/-- The per-brand preference entry of `recommend`'s `brand_preferences`
argument. An absent `models`/`exclude` key and an empty list behave alike in
the source (`'models' in prefs and prefs['models']`), so both are `[]`. -/
structure BrandPref where
  models : List String
  exclude : List String
  deriving DecidableEq

/-- A normalized product row, restricted to the columns the matcher/scorer
reads. `gender_from_name` is always a string because `_extract_gender`
produces one for every row. -/
structure Product where
  gender_from_name : String
  myFieldsSize : Py
  myFieldsWidth : Py
  vendor : Py
  customModel : Py
  customColor : Py
  quantity : ℚ
  deriving DecidableEq

/-- A normalized table as seen by `recommend`. Preprocessing always creates
the `gender_from_name` column, but `recommend` can be called on any frame;
`hasGender` records whether that column is present (indexing an absent
column raises `KeyError` in pandas). The other columns the matcher consults
are fields of `Product`. The frame carries its default unique range index. -/
structure Table where
  hasGender : Bool
  rows : List Product
  deriving DecidableEq

/-- The query: `target_width`/preference arguments already defaulted as in
the source (`target_width or ""`, `brand_preferences or {}`,
`color_preferences or []`). Dicts iterate in insertion order, hence lists. -/
structure Query where
  target_gender : String
  target_size : ℚ
  target_width : String
  brand_preferences : List (String × BrandPref)
  color_preferences : List String
  top_k : Int
  deriving DecidableEq

/-- A row together with the `size_min`/`size_max`/`is_range` columns added
by `_filter_by_size` (`none` models the NaN pair of a failed parse). -/
structure SProduct where
  p : Product
  size_min_max : Option (ℚ × ℚ)
  is_range : Bool
  deriving DecidableEq

/-- Attach the parsed size triple to a row (the columnwise
`df[['size_min', 'size_max', 'is_range']] = ...apply(_parse_size)`). -/
def mkSRow (p : Product) : SProduct :=
  let ps := parseSize p.myFieldsSize
  { p := p, size_min_max := ps.1, is_range := ps.2 }

/-- The mask `(size_min <= target) & (size_max >= target)`; NaN bounds
compare false. -/
def passesSize (t : ℚ) (r : SProduct) : Bool :=
  match r.size_min_max with
  | some (lo, hi) => decide (lo ≤ t) && decide (t ≤ hi)
  | none => false

/-- The fixed `width_compatibility` dictionary local to `_filter_by_width`. -/
def widthCompat (w : String) : Option (List String × List String) :=
  if w == "narrow" then some (["narrow"], ["medium (regular)", "regular"])
  else if w == "medium" then some (["medium (regular)", "regular"], [])
  else if w == "wide" then some (["wide"], ["medium (regular)", "extra wide"])
  else if w == "extra wide" then some (["extra wide"], ["wide"])
  else none

/-- `exact + compatible` for a (lowercased) target width; an unrecognized
key gives the empty list (the two `.get(..., {}).get(..., [])` defaults). -/
def validWidths (w : String) : List String :=
  match widthCompat w.toLower with
  | some (e, c) => e ++ c
  | none => []

/-- The `_filter_by_width` row predicate: `str(x).lower() in valid_widths`. -/
def widthOk (tw : String) (r : SProduct) : Bool :=
  (validWidths tw).contains ((pyStr r.p.myFieldsWidth).toLower)

/-- Python `needle in hay` on strings (contiguous substring, empty needle
always contained). -/
def strContains (needle hay : String) : Bool :=
  (List.range (hay.data.length + 1)).any (fun i => needle.data.isPrefixOf (hay.data.drop i))

/-- The preference scan of `_check_brand`: first entry whose key matches the
vendor decides; required model substrings and excluded substrings are both
checked; no matching key drops the row. -/
def checkBrandLoop (vendor model : String) : List (String × BrandPref) → Bool
  | [] => false
  | (brand, pf) :: rest =>
    if brand.toLower == vendor then
      if !pf.models.isEmpty && !(pf.models.any (fun req => strContains req.toLower model)) then
        false
      else if !pf.exclude.isEmpty && pf.exclude.any (fun ex => strContains ex.toLower model) then
        false
      else true
    else checkBrandLoop vendor model rest

/-- The `_filter_by_brand` row predicate. -/
def checkBrand (prefs : List (String × BrandPref)) (r : SProduct) : Bool :=
  checkBrandLoop (pyStr r.p.vendor).toLower (pyStr r.p.customModel).toLower prefs

/-- Size component of `_compute_score` (lines under `# Size score`): range
rows re-check containment for 40 points; single-value rows reconstruct
`size_val = size_min + 0.5` and award 50 within 0.01, or 45 at exactly half
a size off. A NaN bound (failed parse) makes every comparison false. -/
def sizeScore (r : SProduct) (t : ℚ) : ℚ :=
  if r.is_range then
    match r.size_min_max with
    | some (lo, hi) => if lo ≤ t ∧ t ≤ hi then 40 else 0
    | none => 0
  else
    match r.size_min_max with
    | some (lo, _) =>
      if |lo + 1/2 - t| < 1/100 then 50
      else if |lo + 1/2 - t| = 1/2 then 45
      else 0
    | none => 0

/-- Brand/model component of `_compute_score`: first matching preference key
gives 50, plus 20 when a required model substring occurs; then `break`. -/
def brandScoreLoop (vendor model : String) : List (String × BrandPref) → ℚ
  | [] => 0
  | (brand, pf) :: rest =>
    if brand.toLower == vendor then
      50 + (if !pf.models.isEmpty && pf.models.any (fun req => strContains req.toLower model) then 20 else 0)
    else brandScoreLoop vendor model rest

/-- Brand/model component applied to a row. -/
def brandScore (prefs : List (String × BrandPref)) (r : SProduct) : ℚ :=
  brandScoreLoop (pyStr r.p.vendor).toLower (pyStr r.p.customModel).toLower prefs

/-- Color component scan: the first preferred color found among the row's
slash-separated colors contributes `20 - 5*i` (which is negative from the
sixth preference on); `break` afterwards. -/
def colorLoop : List String → List String → ℕ → ℚ
  | [], _, _ => 0
  | tc :: rest, cs, i =>
    if cs.contains tc.toLower then 20 - 5 * (i : ℚ) else colorLoop rest cs (i + 1)

/-- Color component of `_compute_score`: entered only when preferences exist
and `custom.color` is not NA. -/
def colorScore (colors : List String) (c : Py) : ℚ :=
  if colors.isEmpty || pdIsna c then 0
  else colorLoop colors (((pyStr c).splitOn "/").map (fun x => x.trim.toLower)) 0

/-- The row scorer `_compute_score`. When a target width was supplied the
width block dereferences `self.width_compatibility`; that attribute is never
assigned anywhere in the class (the dictionary of that name is a local of
`_filter_by_width`), so the block raises `AttributeError` before any width
points can be added. -/
def computeScore (q : Query) (r : SProduct) : Except PyErr ℚ :=
  let s1 := sizeScore r q.target_size
  if !q.target_width.isEmpty then .error .attributeError
  else .ok (s1 + brandScore q.brand_preferences r + colorScore q.color_preferences r.p.customColor)

/-- Row-by-row application of the scorer (`df.apply(_compute_score, axis=1)`
on a nonempty frame): the first raised exception aborts the whole call. -/
def computeAll (q : Query) : List SProduct → Except PyErr (List (SProduct × ℚ))
  | [] => .ok []
  | r :: rs =>
    match computeScore q r with
    | .error e => .error e
    | .ok s =>
      match computeAll q rs with
      | .error e => .error e
      | .ok tl => .ok ((r, s) :: tl)

/-- The ranking relation of `sort_values(['score', 'quantity'],
ascending=[False, False])`: score strictly greater first, equal scores
ordered by quantity non-increasing. -/
def rankRel (a b : SProduct × ℚ) : Prop :=
  b.2 < a.2 ∨ (a.2 = b.2 ∧ b.1.p.quantity ≤ a.1.p.quantity)

instance : DecidableRel rankRel := fun a b => by
  unfold rankRel
  exact inferInstance

instance : IsTotal (SProduct × ℚ) rankRel := by
  constructor
  intro a b
  rcases lt_trichotomy a.2 b.2 with h | h | h
  · exact Or.inr (Or.inl h)
  · rcases le_total b.1.p.quantity a.1.p.quantity with hq | hq
    · exact Or.inl (Or.inr ⟨h, hq⟩)
    · exact Or.inr (Or.inr ⟨h.symm, hq⟩)
  · exact Or.inl (Or.inl h)

instance : IsTrans (SProduct × ℚ) rankRel := by
  constructor
  intro a b c hab hbc
  rcases hab with h1 | ⟨e1, q1⟩
  · rcases hbc with h2 | ⟨e2, q2⟩
    · exact Or.inl (h2.trans h1)
    · exact Or.inl (e2 ▸ h1)
  · rcases hbc with h2 | ⟨e2, q2⟩
    · exact Or.inl (e1 ▸ h2)
    · exact Or.inr ⟨e1.trans e2, q2.trans q1⟩

/-- `_score_products`. On a nonempty frame: score every row (first exception
propagates) and sort by the ranking relation. On an empty frame pandas'
`apply` probes the scorer with an all-NaN row to decide whether it reduces:
with a target width the probe hits the missing `width_compatibility`
attribute, `apply` falls back to returning the (multi-column) frame itself,
and the subsequent `df['score'] = ...` assignment raises
`ValueError: Cannot set a DataFrame with multiple columns to the single
column score`; without a target width the probe returns a scalar and the
result is an empty frame that does gain a `score` column. The model uses an
insertion sort; the source sorts by the same two descending keys. -/
def scoreProducts (q : Query) (rows : List SProduct) : Except PyErr (List (SProduct × ℚ)) :=
  if rows.isEmpty then
    if !q.target_width.isEmpty then .error .valueError else .ok []
  else
    match computeAll q rows with
    | .error e => .error e
    | .ok scored => .ok (List.insertionSort rankRel scored)

/-- The filter/score pipeline of `recommend` before the final `head` call.
Stage order and the early empty returns follow the source: the gender and
size stages return the (score-less) empty frame immediately; the width and
brand stages have no emptiness check and fall through to `_score_products`. -/
def rankedList (t : Table) (q : Query) : Except PyErr (List (SProduct × ℚ)) :=
  if !t.hasGender then .error .keyError
  else
    let r1 := t.rows.filter (fun p => p.gender_from_name.toLower == q.target_gender.toLower)
    if r1.isEmpty then .ok []
    else
      let r2 := (r1.map mkSRow).filter (passesSize q.target_size)
      if r2.isEmpty then .ok []
      else
        let r3 := if !q.target_width.isEmpty then r2.filter (widthOk q.target_width) else r2
        let r4 := if !q.brand_preferences.isEmpty then r3.filter (checkBrand q.brand_preferences) else r3
        scoreProducts q r4

/-- pandas `df.head(n)`: the first `n` rows for `n ≥ 0`, everything except
the last `|n|` rows for negative `n` (the slice `l[:-|n|]`). -/
def pyHead (n : Int) (l : List α) : List α :=
  if 0 ≤ n then l.take n.toNat else l.take (l.length - n.natAbs)

/-- `ShoeRecommender.recommend`, as a function of the normalized table. The
early empty returns of the source bypass `head`, which agrees with taking
`head` of the empty list. -/
def recommend (t : Table) (q : Query) : Except PyErr (List (SProduct × ℚ)) :=
  match rankedList t q with
  | .error e => .error e
  | .ok l => .ok (pyHead q.top_k l)

/-!
Normalizer (`_preprocess_data` and its steps). A frame is a column-name
list plus one association list per row; the loaded frame carries its default
unique range index, so the `axis=1` concatenations align rows one-to-one.
`json.loads` of the Python standard library is abstracted by the `loads`
parameter, returning the key/value pairs of a parsed JSON object or `none`
on a parse failure (JSON documents that are not flat objects are outside
the modelled fragment). All theorems below hold for every such function.
-/

/-- A pandas dataframe restricted to what the normalizer observes: column
names in order, and per-row cell values keyed by column name. -/
structure PFrame where
  cols : List String
  rows : List (List (String × Py))

/-- First value bound to a key in an association list. -/
def assocGet (d : List (String × α)) (k : String) : Option α :=
  (d.find? (fun kv => kv.1 == k)).map (fun kv => kv.2)

/-- Cell of a row in a named column; absent columns give `pnone` (the base
frame always carries the ten loaded columns, so this default is never
observed on the source's paths). -/
def rowGet (row : List (String × Py)) (c : String) : Py :=
  (assocGet row c).getD .pnone

/-- Column assignment `df[c] = df.apply(f)`: replaces an existing column or
appends a new one; exactly one value per existing row. -/
def setCol (df : PFrame) (c : String) (f : List (String × Py) → Py) : PFrame :=
  { cols := if df.cols.contains c then df.cols else df.cols ++ [c],
    rows := df.rows.map (fun row => row.filter (fun kv => kv.1 != c) ++ [(c, f row)]) }

/-- Embed a JSON leaf into a cell value. -/
def PVal.toPy : PVal → Py
  | .vnone => .pnone
  | .vstr s => .pstr s
  | .vnum q => .pnum q

/-- The row helper `_split_colors` of `_extract_color_from_name`: with at
least three comma segments, the second segment split on `/` and trimmed;
otherwise (or on the exception a non-string raises) the empty list. -/
def splitColors : Py → Py
  | .pstr name =>
    let parts := name.splitOn ","
    if parts.length ≥ 3 then
      .pstrList (((parts[1]?.getD "").trim.splitOn "/").map String.trim)
    else .pstrList []
  | _ => .pstrList []

/-- Step `_extract_color_from_name`. -/
def extractColorStep (df : PFrame) : PFrame :=
  setCol df "color_from_name" (fun row => splitColors (rowGet row "product_name"))

/-- The row helper `_parse_options`: strings parse as JSON (blank string and
parse failure give the empty object), dicts pass through, anything else
gives the empty object. -/
def parseOptions (loads : String → Option (List (String × PVal))) : Py → List (String × PVal)
  | .pstr s => if s.trim.isEmpty then [] else (loads s).getD []
  | .pobj d => d
  | _ => []

/-- The union of options keys across rows in order of first appearance: the
columns of the frame pandas builds from the parsed dicts. -/
def optionKeys (loads : String → Option (List (String × PVal))) (df : PFrame) : List String :=
  ((df.rows.map (fun row => (parseOptions loads (rowGet row "options")).map (fun kv => kv.1))).flatten).dedup

/-- Step `_expand_options_columns`: existing columns whose name collides
with an options key are dropped, then the options columns are concatenated
(`axis=1`, shared index); a row without some key gets NaN there. -/
def expandOptions (loads : String → Option (List (String × PVal))) (df : PFrame) : PFrame :=
  let oc := optionKeys loads df
  { cols := df.cols.filter (fun c => !oc.contains c) ++ oc,
    rows := df.rows.map (fun row =>
      let d := parseOptions loads (rowGet row "options")
      row.filter (fun kv => !oc.contains kv.1) ++
        oc.map (fun c => (c, ((assocGet d c).map PVal.toPy).getD .pnone))) }

/-- The five projected metadata keys of `_expand_metadata_columns`. -/
def metaKeys : List String :=
  ["custom.color", "custom.model", "google.gender", "my_fields.size", "my_fields.width"]

/-- The row helper `_extract_metadata`: permissive parse, then projection of
exactly the five keys; absent keys, a non-string non-dict value or a parse
failure give `None` for the projected keys. -/
def extractMetadata (loads : String → Option (List (String × PVal))) : Py → List (String × Py)
  | .pstr s =>
    match loads s with
    | some d => metaKeys.map (fun k => (k, ((assocGet d k).map PVal.toPy).getD .pnone))
    | none => metaKeys.map (fun k => (k, .pnone))
  | .pobj d => metaKeys.map (fun k => (k, ((assocGet d k).map PVal.toPy).getD .pnone))
  | _ => metaKeys.map (fun k => (k, .pnone))

/-- Step `_expand_metadata_columns`: concatenation of the five projected
columns (`axis=1`, shared index); no conflict handling in the source. -/
def expandMetadata (loads : String → Option (List (String × PVal))) (df : PFrame) : PFrame :=
  { cols := df.cols ++ metaKeys,
    rows := df.rows.map (fun row => row ++ extractMetadata loads (rowGet row "metadata")) }

/-- Step `_extract_gender` (runs after the JSON expansions, so it reads the
`product_name` column as it stands at that point). -/
def extractGenderStep (df : PFrame) : PFrame :=
  setCol df "gender_from_name" (fun row => .pstr (pyGender (rowGet row "product_name")))

/-- The rename mapping of `_standardize_columns`; names outside the mapping
are unchanged (the dict comprehension keeps only present keys, which is the
same as renaming every occurrence). -/
def renameCol (c : String) : String :=
  if c == "Size" then "size_from_options"
  else if c == "Color" then "color_from_options"
  else if c == "Width" then "width_from_options"
  else if c == "Model" then "model_from_options"
  else if c == "first_word" then "first_word_from_name"
  else if c == "Department" then "gender_from_name"
  else c

/-- Step `_standardize_columns`. -/
def standardize (df : PFrame) : PFrame :=
  { cols := df.cols.map renameCol,
    rows := df.rows.map (fun row => row.map (fun kv => (renameCol kv.1, kv.2))) }

/-- `_preprocess_data`: the five steps in source order. -/
def preprocessData (loads : String → Option (List (String × PVal))) (df : PFrame) : PFrame :=
  standardize (extractGenderStep (expandMetadata loads (expandOptions loads (extractColorStep df))))

/-!
Concrete rows and queries used by the claim instances below. Sizes, widths
and scores on these inputs are exact in machine floats, so the rational
computations agree branch-for-branch with the source.
-/

/-- A men's size-10 row in a medium width. -/
def prodMedium : Product :=
  ⟨"Men's", .pstr "10", .pstr "Medium (Regular)", .pstr "Asics", .pstr "Gel-Kayano 30", .pstr "Blue/Grey", 5⟩

/-- A men's size-10 row in a wide width. -/
def prodWide : Product :=
  ⟨"Men's", .pstr "10", .pstr "Wide", .pstr "Asics", .pstr "Gel-Kayano 30", .pstr "Blue/Grey", 5⟩

/-- A men's size-10 row with no width/model/color data, quantity 5. -/
def prodPlainA : Product :=
  ⟨"Men's", .pstr "10", .pnone, .pstr "BrandA", .pnone, .pnone, 5⟩

/-- A men's size-10 row with no width/model/color data, quantity 3. -/
def prodPlainB : Product :=
  ⟨"Men's", .pstr "10", .pnone, .pstr "BrandB", .pnone, .pnone, 3⟩

/-- A men's size-9 blue row (used with a six-entry color preference list). -/
def prodColorSix : Product :=
  ⟨"Men's", .pstr "9", .pnone, .pstr "SomeCo", .pnone, .pstr "Blue", 1⟩

/-- A men's row whose canonical size string is the range `9-10`. -/
def prodRange910 : Product :=
  ⟨"Men's", .pstr "9-10", .pnone, .pnone, .pnone, .pnone, 1⟩

/-- Query: men's size 10, target width `wide`, no preferences, limit 10. -/
def queryWide : Query := ⟨"Men's", 10, "wide", [], [], 10⟩

/-- Query: men's size 10, unrecognized target width `green`, limit 10. -/
def queryGreen : Query := ⟨"Men's", 10, "green", [], [], 10⟩

/-- Query: men's size 10, no width, no preferences, limit 10. -/
def queryPlain : Query := ⟨"Men's", 10, "", [], [], 10⟩

/-- Query: men's size 10, no width, no preferences, negative limit -1. -/
def queryNegLimit : Query := ⟨"Men's", 10, "", [], [], -1⟩

/-- Query: men's size 10, no width, no preferences, limit 1. -/
def queryLimitOne : Query := ⟨"Men's", 10, "", [], [], 1⟩

/-- Query: men's size 9.2 with six color preferences ending in `Blue`. -/
def querySixColors : Query := ⟨"Men's", 46/5, "", [], ["A", "B", "C", "D", "E", "Blue"], 10⟩

/-!
Helper lemmas about the pipeline.
-/

/-- An `ok` result of `recommend` is the `head` slice of an `ok` result of
the pre-truncation pipeline. -/
theorem recommend_ok_elim (t : Table) (q : Query) (l : List (SProduct × ℚ))
    (h : recommend t q = .ok l) :
    ∃ l0, rankedList t q = .ok l0 ∧ l = pyHead q.top_k l0 := by
  unfold recommend at h
  split at h
  · simp at h
  · rename_i l0 heq
    injection h with h'
    exact ⟨l0, heq, h'.symm⟩

/-- Rows surviving to an `ok` result of `_score_products` carry exactly the
score `_compute_score` assigns them. -/
theorem computeAll_mem (q : Query) :
    ∀ (rows : List SProduct) (l : List (SProduct × ℚ)), computeAll q rows = .ok l →
      ∀ x ∈ l, computeScore q x.1 = .ok x.2 := by
  intro rows
  induction rows with
  | nil =>
    intro l h x hx
    unfold computeAll at h
    injection h with h'
    rw [← h'] at hx
    simp at hx
  | cons r rs ih =>
    intro l h x hx
    unfold computeAll at h
    cases hc : computeScore q r with
    | error e => rw [hc] at h; simp at h
    | ok s =>
      rw [hc] at h
      cases hrest : computeAll q rs with
      | error e => rw [hrest] at h; simp at h
      | ok tl =>
        rw [hrest] at h
        simp only at h
        injection h with h'
        rw [← h'] at hx
        rcases List.mem_cons.mp hx with hx1 | hx2
        · rw [hx1]; exact hc
        · exact ih tl hrest x hx2

/-- An `ok` result of `_score_products` is sorted by the ranking relation. -/
theorem scoreProducts_ok_pairwise (q : Query) (rows : List SProduct) (l : List (SProduct × ℚ))
    (h : scoreProducts q rows = .ok l) : l.Pairwise rankRel := by
  unfold scoreProducts at h
  split at h
  · split at h
    · simp at h
    · injection h with h'
      rw [← h']
      exact List.Pairwise.nil
  · split at h
    · simp at h
    · rename_i scored heq
      injection h with h'
      rw [← h']
      exact List.sorted_insertionSort rankRel scored

/-- Scores in an `ok` result of `_score_products` come from
`_compute_score`. -/
theorem scoreProducts_ok_scores (q : Query) (rows : List SProduct) (l : List (SProduct × ℚ))
    (h : scoreProducts q rows = .ok l) :
    ∀ x ∈ l, computeScore q x.1 = .ok x.2 := by
  unfold scoreProducts at h
  split at h
  · split at h
    · simp at h
    · injection h with h'
      rw [← h']
      intro x hx
      simp at hx
  · split at h
    · simp at h
    · rename_i scored heq
      injection h with h'
      intro x hx
      rw [← h'] at hx
      exact computeAll_mem q rows scored heq x ((List.mem_insertionSort rankRel).mp hx)

/-- An `ok` result of the pre-truncation pipeline is either an early empty
return or an `ok` result of `_score_products` on the filtered rows. -/
theorem rankedList_ok_cases (t : Table) (q : Query) (l : List (SProduct × ℚ))
    (h : rankedList t q = .ok l) :
    l = [] ∨ ∃ rows, scoreProducts q rows = .ok l := by
  simp only [rankedList] at h
  split at h
  · simp at h
  · split at h
    · injection h with h'
      exact Or.inl h'.symm
    · split at h
      · injection h with h'
        exact Or.inl h'.symm
      · exact Or.inr ⟨_, h⟩

/-- An `ok` result of the pre-truncation pipeline is sorted. -/
theorem rankedList_ok_pairwise (t : Table) (q : Query) (l : List (SProduct × ℚ))
    (h : rankedList t q = .ok l) : l.Pairwise rankRel := by
  rcases rankedList_ok_cases t q l h with rfl | ⟨rows, hs⟩
  · exact List.Pairwise.nil
  · exact scoreProducts_ok_pairwise q rows l hs

/-- Scores in an `ok` result of the pre-truncation pipeline come from
`_compute_score`. -/
theorem rankedList_ok_scores (t : Table) (q : Query) (l : List (SProduct × ℚ))
    (h : rankedList t q = .ok l) :
    ∀ x ∈ l, computeScore q x.1 = .ok x.2 := by
  rcases rankedList_ok_cases t q l h with rfl | ⟨rows, hs⟩
  · intro x hx
    simp at hx
  · exact scoreProducts_ok_scores q rows l hs

/-- An `ok` score of `_compute_score` means no width was supplied, and the
score is the sum of the three remaining components. -/
theorem computeScore_ok_elim (q : Query) (r : SProduct) (s : ℚ)
    (h : computeScore q r = .ok s) :
    q.target_width.isEmpty = true ∧
      s = sizeScore r q.target_size + brandScore q.brand_preferences r
            + colorScore q.color_preferences r.p.customColor := by
  unfold computeScore at h
  split at h
  · simp at h
  · rename_i hw
    injection h with h'
    refine ⟨?_, h'.symm⟩
    simpa using hw

/-- `head` always yields a sublist of its input. -/
theorem pyHead_sublist (n : Int) (l : List α) : (pyHead n l).Sublist l := by
  unfold pyHead
  split
  · exact List.take_sublist _ _
  · exact List.take_sublist _ _

/-- The ranking relation entails the claim-level ordering facts. -/
theorem rankRel_weaken (a b : SProduct × ℚ) (h : rankRel a b) :
    b.2 ≤ a.2 ∧ (a.2 = b.2 → b.1.p.quantity ≤ a.1.p.quantity) := by
  rcases h with h | ⟨he, hq⟩
  · exact ⟨le_of_lt h, fun e => absurd e (ne_of_gt h)⟩
  · exact ⟨le_of_eq he.symm, fun _ => hq⟩

/-- The size component is never negative. -/
theorem sizeScore_nonneg (r : SProduct) (t : ℚ) : 0 ≤ sizeScore r t := by
  unfold sizeScore
  split
  · split
    · split
      · norm_num
      · norm_num
    · norm_num
  · split
    · split
      · norm_num
      · split
        · norm_num
        · norm_num
    · norm_num

/-- The brand/model component is never negative. -/
theorem brandScoreLoop_nonneg (vendor model : String) :
    ∀ prefs : List (String × BrandPref), 0 ≤ brandScoreLoop vendor model prefs := by
  intro prefs
  induction prefs with
  | nil => simp [brandScoreLoop]
  | cons hd tl ih =>
    obtain ⟨brand, pf⟩ := hd
    unfold brandScoreLoop
    split
    · split
      · norm_num
      · norm_num
    · exact ih

/-- The color scan stays non-negative while the running index can still
keep `20 - 5*i` non-negative. -/
theorem colorLoop_nonneg (cs : List String) :
    ∀ (tcs : List String) (i : ℕ), tcs.length + i ≤ 5 → 0 ≤ colorLoop tcs cs i := by
  intro tcs
  induction tcs with
  | nil =>
    intro i _
    simp [colorLoop]
  | cons tc rest ih =>
    intro i hlen
    unfold colorLoop
    split
    · have hi : (i : ℚ) ≤ 4 := by
        have : i ≤ 4 := by simp at hlen; omega
        exact_mod_cast this
      linarith
    · refine ih (i + 1) ?_
      simp at hlen ⊢
      omega

/-- With at most five color preferences the color component is never
negative. -/
theorem colorScore_nonneg (colors : List String) (c : Py) (h : colors.length ≤ 5) :
    0 ≤ colorScore colors c := by
  unfold colorScore
  split
  · norm_num
  · exact colorLoop_nonneg _ colors 0 (by omega)

/-!
Claim theorems.
-/

/-- C1: the claim says `recommend` never raises — in particular whenever a
target width is supplied it is said to return a (possibly empty) scored
result. In the code the scorer dereferences `self.width_compatibility`, an
attribute that is never assigned (the dictionary of that name is a local
variable of `_filter_by_width`), so on this one-row table whose row passes
every filter, a query with target width `wide` raises `AttributeError`
instead of returning. -/
theorem claim_c1_width_query_raises :
    recommend ⟨true, [prodWide]⟩ queryWide = .error .attributeError := by with_unfolding_all rfl

/-- C2 counterexample: for the size range `9-10` and target size `9.5` the
size component of the score is 40 points (the code's 50/40-point scale),
not the 18.75 stated by the claim. -/
theorem claim_c2_counterexample :
    sizeScore (mkSRow prodRange910) (19/2) = 40 ∧ ((40 : ℚ) ≠ 75/4) := by
  refine ⟨by with_unfolding_all rfl, by norm_num⟩

/-- C2 amended: size string `9-10` parses to the interval `[8.5, 10.5]`
with `is_range = true`, the row passes the size filter at target `9.5`,
and the size component of its score is 40 points. -/
theorem claim_c2_amended_range_scores_forty :
    parseSize (.pstr "9-10") = (some (17/2, 21/2), true) ∧
      passesSize (19/2) (mkSRow prodRange910) = true ∧
      sizeScore (mkSRow prodRange910) (19/2) = 40 := by
  refine ⟨by with_unfolding_all rfl, by with_unfolding_all rfl, by with_unfolding_all rfl⟩

/-- C3 counterexample: on a table without the derived-gender column,
`recommend` does not return an empty result — it raises `KeyError` (pandas
missing-column lookup) on this concrete input. -/
theorem claim_c3_counterexample :
    recommend ⟨false, [prodPlainA]⟩ queryPlain = .error .keyError := by with_unfolding_all rfl

/-- C3 amended: for every query and every table in which the derived-gender
column is absent, `recommend` raises `KeyError` (the pandas missing-column
error) instead of returning an empty result. -/
theorem claim_c3_missing_gender_raises (rows : List Product) (q : Query) :
    recommend ⟨false, rows⟩ q = .error .keyError := by
  simp [recommend, rankedList]

/-- C4 counterexample: a ranked result can carry a negative score — with
six color preferences whose match sits at 0-based rank 5, the color term
contributes `20 - 25 = -5` while every other component is 0, and the row is
returned with score `-5`. -/
theorem claim_c4_counterexample :
    recommend ⟨true, [prodColorSix]⟩ querySixColors = .ok [(mkSRow prodColorSix, -5)] ∧
      ((-5 : ℚ) < 0) := by
  refine ⟨by with_unfolding_all rfl, by norm_num⟩

/-- C4 amended: scores of a ranked result are non-negative provided the
color-preference list has at most five entries (from the sixth entry on the
color term `20 - 5*i` goes negative and no floor exists). -/
theorem claim_c4_nonneg_up_to_five_colors (t : Table) (q : Query) (l : List (SProduct × ℚ))
    (hc : q.color_preferences.length ≤ 5) (hok : recommend t q = .ok l) :
    ∀ x ∈ l, 0 ≤ x.2 := by
  obtain ⟨l0, hr, hl⟩ := recommend_ok_elim t q l hok
  subst hl
  intro x hx
  have hx0 : x ∈ l0 := (pyHead_sublist _ _).subset hx
  obtain ⟨hw, hs⟩ := computeScore_ok_elim q x.1 x.2 (rankedList_ok_scores t q l0 hr x hx0)
  rw [hs]
  have h1 := sizeScore_nonneg x.1 q.target_size
  have h2 := brandScoreLoop_nonneg (pyStr x.1.p.vendor).toLower
    (pyStr x.1.p.customModel).toLower q.brand_preferences
  have h3 := colorScore_nonneg q.color_preferences x.1.p.customColor hc
  unfold brandScore
  linarith

/-- C4 witness: the amended claim applied to a concrete query with an empty
color-preference list whose top result carries score 50. -/
theorem claim_c4_witness :
    queryPlain.color_preferences.length ≤ 5 ∧ (0 : ℚ) ≤ (mkSRow prodPlainA, (50 : ℚ)).2 :=
  ⟨by decide,
    claim_c4_nonneg_up_to_five_colors ⟨true, [prodPlainA, prodPlainB]⟩ queryPlain
      [(mkSRow prodPlainA, 50), (mkSRow prodPlainB, 50)] (by decide) (by with_unfolding_all rfl)
      (mkSRow prodPlainA, 50) (by simp)⟩

/-- C5: the claim says a name containing `Kids'` as a whole word yields
`Kids'`. In the pattern the closing `\b` follows the apostrophe, and a
word boundary after a non-word character requires the next character to be
a word character — so `Kids'` followed by a space or the end of the string
never matches and such names yield `Unknown`. The other vocabulary tokens
and the no-match/non-string cases behave as described. -/
theorem claim_c5_kids_token_never_matches :
    pyGender (.pstr "Kids' Running Shoe") = "Unknown" ∧
      pyGender (.pstr "Nice Women's Shoe") = "Women's" ∧
      pyGender (.pstr "plain sneaker") = "Unknown" ∧
      pyGender .pnone = "Unknown" := by
  refine ⟨by rfl, by rfl, by rfl, by rfl⟩

/-- C6: the claim says each part of a hyphenated size applies the
trailing-dot half-size convention, so `9.-10.` should give `[9.0, 11.0]`.
In the range branch the code strips all dots before testing
`endswith('.')`, so the `+ 0.5` arm is dead there: `9.-10.` parses exactly
like `9-10`, giving `[8.5, 10.5]`. -/
theorem claim_c6_range_trailing_dot_dead :
    parseSize (.pstr "9.-10.") = (some (17/2, 21/2), true) ∧
      ((some ((17 : ℚ)/2, (21 : ℚ)/2), true) ≠
        ((some ((9 : ℚ), (11 : ℚ)), true) : Option (ℚ × ℚ) × Bool)) := by
  refine ⟨by with_unfolding_all rfl, by with_unfolding_all decide⟩

/-- C7 counterexample: with negative limit `-1` and two surviving rows,
`recommend` returns one row, not an empty result. -/
theorem claim_c7_counterexample :
    recommend ⟨true, [prodPlainA, prodPlainB]⟩ queryNegLimit = .ok [(mkSRow prodPlainA, 50)] ∧
      ((.ok [(mkSRow prodPlainA, (50 : ℚ))] : Except PyErr (List (SProduct × ℚ))) ≠ .ok []) := by
  refine ⟨by with_unfolding_all rfl, by simp⟩

/-- C7 amended: with a negative limit `-n`, `recommend` returns the ranked
list minus its last `n` rows (`df.head(-n)` is the slice `[:-n]`), so the
result is empty only when at most `n` rows survive the filters. -/
theorem claim_c7_negative_limit_slices (t : Table) (q : Query) (l : List (SProduct × ℚ))
    (hneg : q.top_k < 0) (hok : rankedList t q = .ok l) :
    recommend t q = .ok (l.take (l.length - q.top_k.natAbs)) := by
  unfold recommend
  rw [hok]
  show Except.ok (pyHead q.top_k l) = _
  unfold pyHead
  rw [if_neg (not_le.mpr hneg)]

/-- C7 witness: the amended claim applied to the concrete two-row table
with limit `-1`. -/
theorem claim_c7_witness :
    ((-1 : Int) < 0) ∧
      recommend ⟨true, [prodPlainA, prodPlainB]⟩ queryNegLimit =
        .ok ([(mkSRow prodPlainA, (50 : ℚ)), (mkSRow prodPlainB, 50)].take
          ([(mkSRow prodPlainA, (50 : ℚ)), (mkSRow prodPlainB, 50)].length - (-1 : Int).natAbs)) :=
  ⟨by decide,
    claim_c7_negative_limit_slices ⟨true, [prodPlainA, prodPlainB]⟩ queryNegLimit
      [(mkSRow prodPlainA, 50), (mkSRow prodPlainB, 50)] (by decide) (by with_unfolding_all rfl)⟩

/-- C8: the claim says an unrecognized target width passes no rows and
`recommend` returns an empty result. The filter part holds (the lookup
yields no valid widths), but `recommend` then raises instead of returning
empty: scoring the emptied frame probes the scorer, hits the missing
`width_compatibility` attribute, and the fallback assignment of the frame
to the `score` column raises `ValueError`. -/
theorem claim_c8_unknown_width_raises :
    validWidths "green" = [] ∧
      recommend ⟨true, [prodMedium]⟩ queryGreen = .error .valueError := by
  refine ⟨by with_unfolding_all rfl, by with_unfolding_all rfl⟩

/-- C9: for every query with a positive limit, an `ok` ranked result has at
most `limit` rows, its scores are non-increasing, and rows with equal
score appear in non-increasing order of quantity. -/
theorem claim_c9_result_bounded_and_sorted (t : Table) (q : Query) (l : List (SProduct × ℚ))
    (hok : recommend t q = .ok l) (hpos : 0 < q.top_k) :
    l.length ≤ q.top_k.toNat ∧
      l.Pairwise (fun a b => b.2 ≤ a.2 ∧ (a.2 = b.2 → b.1.p.quantity ≤ a.1.p.quantity)) := by
  obtain ⟨l0, hr, hl⟩ := recommend_ok_elim t q l hok
  subst hl
  constructor
  · unfold pyHead
    rw [if_pos (le_of_lt hpos)]
    rw [List.length_take]
    exact min_le_left _ _
  · exact ((rankedList_ok_pairwise t q l0 hr).sublist (pyHead_sublist _ _)).imp
      (fun {a b} h => rankRel_weaken a b h)

/-- C9 witness: the concrete two-row table with limit 1 yields the single
best row, bounded and sorted. -/
theorem claim_c9_witness :
    (0 < (1 : Int)) ∧
      ([(mkSRow prodPlainA, (50 : ℚ))].length ≤ (1 : Int).toNat ∧
        [(mkSRow prodPlainA, (50 : ℚ))].Pairwise
          (fun a b => b.2 ≤ a.2 ∧ (a.2 = b.2 → b.1.p.quantity ≤ a.1.p.quantity))) :=
  ⟨by decide,
    claim_c9_result_bounded_and_sorted ⟨true, [prodPlainA, prodPlainB]⟩ queryLimitOne
      [(mkSRow prodPlainA, 50)] (by with_unfolding_all rfl) (by decide)⟩

/-- C10: every preprocessing step, and the composed `_preprocess_data`,
produces exactly one output row per input row — no rows are dropped or
added by normalization, for every raw batch and every JSON parser. -/
theorem claim_c10_row_counts_preserved (loads : String → Option (List (String × PVal)))
    (df : PFrame) :
    (extractColorStep df).rows.length = df.rows.length ∧
      (expandOptions loads df).rows.length = df.rows.length ∧
      (expandMetadata loads df).rows.length = df.rows.length ∧
      (extractGenderStep df).rows.length = df.rows.length ∧
      (standardize df).rows.length = df.rows.length ∧
      (preprocessData loads df).rows.length = df.rows.length := by
  refine ⟨?_, ?_, ?_, ?_, ?_, ?_⟩ <;>
    simp [preprocessData, standardize, extractGenderStep, expandMetadata, expandOptions,
      extractColorStep, setCol]

end ShoeRec
